import Mathlib

/-!
Shallow embedding of the authentication service in `src/main.py`
(`register`, `login`, `google_auth`, `forgot_password`, `reset_password`)
over the document store described by `src/schemas.py` (`AuthUser` in the
`authuser` collection, `PasswordReset` in the `passwordreset` collection).

Modelling conventions:
* A Mongo document is a record with an `_id` assigned at insertion.
  `is_active` is `Option Bool` because stored documents may lack the field;
  the code reads it with `user.get("is_active", True)`, i.e. `Option.getD true`.
* `pwd_context.hash` / `pwd_context.verify` (passlib, external) are
  parameters `hashFn : String → String` and `verify : String → String → Bool`.
* `secrets.token_urlsafe(32)` and `os.urandom(16).hex()` are parameters.
* Time is an `Int` of UTC seconds; `datetime.now(timezone.utc)` is the
  parameter `now`, and `timedelta(hours=1)` is `3600`.  The code normalises
  naive stored timestamps to UTC before comparing, so stored `expires_at`
  values are absolute UTC instants.
* The Google tokeninfo response is `OracleResp`: `reject` for a non-200
  status, `ok email? name?` for the parsed JSON fields.
* `db` may be `None` in the code (`... if db else None`), hence operations
  whose behaviour the claims need at an unavailable store take `Option DB`.
* An `HTTPException` is `HTTPExc` (status code and detail string); each
  endpoint returns `Except HTTPExc resp × (resulting store)`.
-/

deriving instance DecidableEq for Except

namespace BackendAuth

/-- Python's `str.lower()`, character-wise over the string's characters.
(Defined over `String.data` so that it reduces inside the kernel;
extensionally it is `String.toLower`.) -/
def strLower (s : String) : String := String.mk (s.data.map Char.toLower)

/-- A stored `authuser` document (schema `AuthUser` plus Mongo `_id`). -/
structure AuthUserDoc where
  _id : Nat
  name : String
  email : String
  password_hash : String
  is_active : Option Bool
deriving DecidableEq

/-- A stored `passwordreset` document (schema `PasswordReset` plus `_id`). -/
structure ResetDoc where
  _id : Nat
  email : String
  token : String
  expires_at : Int
  used : Bool
deriving DecidableEq

/-- The backing store: the two collections used by the auth endpoints, and
the next fresh `_id`.

`create_document` itself lives in the repository's `database` module, which
is absent from the sources; per the spec's store contracts
(`insert(account) -> id`, `insert(resetToken) -> id`) an insert appends a
document with a fresh id and returns that id, modelled here by `nextId`. -/
structure DB where
  authuser : List AuthUserDoc
  passwordreset : List ResetDoc
  nextId : Nat
deriving DecidableEq

/-- Store well-formedness: document ids are unique within each collection
(Mongo `_id` uniqueness) and fresh ids are really fresh. -/
def DB.WF (db : DB) : Prop :=
  (db.authuser.map (fun u => u._id)).Nodup ∧
  (db.passwordreset.map (fun t => t._id)).Nodup ∧
  (∀ u ∈ db.authuser, u._id < db.nextId) ∧
  (∀ t ∈ db.passwordreset, t._id < db.nextId)

instance (db : DB) : Decidable db.WF := by
  unfold DB.WF; infer_instance

/-- An `HTTPException(status_code, detail)`. -/
structure HTTPExc where
  status : Nat
  detail : String
deriving DecidableEq

/-- The `user` object embedded in login-style success responses
(`str(user["_id"])`, name, email). -/
structure UserInfo where
  id : Nat
  name : String
  email : String
deriving DecidableEq

/-- Success body of `/auth/register`. -/
structure RegisterResp where
  ok : Bool
  message : String
  user_id : Nat
deriving DecidableEq

/-- Success body of `/auth/login` and `/auth/google`. -/
structure LoginResp where
  ok : Bool
  message : String
  user : UserInfo
  token : String
deriving DecidableEq

/-- Success body of `/auth/forgot`; `token` and `expires_in` are `Option`
because the JSON fields are present only for a registered email. -/
structure ForgotResp where
  ok : Bool
  message : String
  token : Option String
  expires_in : Option Nat
deriving DecidableEq

/-- Success body of `/auth/reset`. -/
structure ResetResp where
  ok : Bool
  message : String
deriving DecidableEq

/-- `RegisterRequest` payload. -/
structure RegisterPayload where
  name : String
  email : String
  password : String
deriving DecidableEq

/-- `LoginRequest` payload. -/
structure LoginPayload where
  email : String
  password : String
deriving DecidableEq

/-- `ResetPasswordRequest` payload. -/
structure ResetPayload where
  email : String
  token : String
  new_password : String
deriving DecidableEq

/-- Outcome of the Google tokeninfo call: `reject` for a non-200 response,
`ok email? name?` for a 200 response with the parsed optional fields. -/
inductive OracleResp where
  | reject : OracleResp
  | ok : Option String → Option String → OracleResp
deriving DecidableEq

/-- Python's `a or b` on an optional string: `None` and `""` are falsy. -/
def pyOr (s : Option String) (d : String) : String :=
  match s with
  | some v => if v == "" then d else v
  | none => d

/-- Python's `email.split('@')[0]`: everything before the first `@`
(the whole string when there is no `@`).  Defined over `String.data` so
that it reduces inside the kernel. -/
def localPart (email : String) : String :=
  String.mk (email.data.takeWhile (fun c => c != '@'))

/-- Mongo `update_one({"_id": id}, {"$set": {"password_hash": h}})` on the
`authuser` collection: rewrites the first document with that id. -/
def updateOneUserHash : List AuthUserDoc → Nat → String → List AuthUserDoc
  | [], _, _ => []
  | u :: rest, id, h =>
    if u._id == id then { u with password_hash := h } :: rest
    else u :: updateOneUserHash rest id h

/-- Mongo `update_one({"_id": id}, {"$set": {"used": True}})` on the
`passwordreset` collection: rewrites the first document with that id. -/
def markUsedById : List ResetDoc → Nat → List ResetDoc
  | [], _ => []
  | t :: rest, id =>
    if t._id == id then { t with used := true } :: rest
    else t :: markUsedById rest id

/-- `POST /auth/register` (`register` in `src/main.py`).  `hashFn` is
`pwd_context.hash`. -/
def register (hashFn : String → String) (db : DB) (p : RegisterPayload) :
    Except HTTPExc RegisterResp × DB :=
  match db.authuser.find? (fun u => u.email == (strLower p.email)) with
  | some _ => (.error ⟨409, "Email sudah terdaftar"⟩, db)
  | none =>
    let doc : AuthUserDoc :=
      ⟨db.nextId, p.name, (strLower p.email), hashFn p.password, some true⟩
    (.ok ⟨true, "Registrasi berhasil", db.nextId⟩,
     { db with authuser := db.authuser ++ [doc], nextId := db.nextId + 1 })

/-- `POST /auth/login` (`login` in `src/main.py`).  `verify` is
`pwd_context.verify`; `db?` is `None` when the store is unavailable
(the code computes `db["authuser"].find_one(...) if db else None`). -/
def login (verify : String → String → Bool) (db? : Option DB) (p : LoginPayload) :
    Except HTTPExc LoginResp × Option DB :=
  let user? : Option AuthUserDoc := match db? with
    | some db => db.authuser.find? (fun u => u.email == (strLower p.email))
    | none => none
  match user? with
  | none => (.error ⟨401, "Email atau kata sandi salah"⟩, db?)
  | some user =>
    if !(verify p.password user.password_hash) then
      (.error ⟨401, "Email atau kata sandi salah"⟩, db?)
    else if !(user.is_active.getD true) then
      (.error ⟨403, "Akun dinonaktifkan"⟩, db?)
    else
      (.ok ⟨true, "Login berhasil", ⟨user._id, user.name, user.email⟩, "demo-token"⟩, db?)

/-- `POST /auth/google` (`google_auth` in `src/main.py`), for an available
store.  `hashFn` is `pwd_context.hash`, `randomHex` is
`os.urandom(16).hex()`, `oracle` the tokeninfo outcome.  After inserting a
new account the code re-reads it by `_id`; a failed re-read would raise and
be mapped to the generic 500 by the surrounding `except Exception`. -/
def google_auth (hashFn : String → String) (randomHex : String)
    (oracle : OracleResp) (db : DB) :
    Except HTTPExc LoginResp × DB :=
  match oracle with
  | .reject => (.error ⟨401, "Token Google tidak valid"⟩, db)
  | .ok email? name? =>
    let email := strLower (pyOr email? "")
    if email == "" then (.error ⟨400, "Email tidak ditemukan dari Google"⟩, db)
    else
      let name := pyOr name? ("Pengguna " ++ localPart email)
      match db.authuser.find? (fun u => u.email == email) with
      | some user =>
        if !(user.is_active.getD true) then (.error ⟨403, "Akun dinonaktifkan"⟩, db)
        else
          (.ok ⟨true, "Login Google berhasil",
                ⟨user._id, user.name, user.email⟩, "demo-token"⟩, db)
      | none =>
        let doc : AuthUserDoc :=
          ⟨db.nextId, name, email, hashFn randomHex, some true⟩
        let db' : DB :=
          { db with authuser := db.authuser ++ [doc], nextId := db.nextId + 1 }
        match db'.authuser.find? (fun u => u._id == db.nextId) with
        | none => (.error ⟨500, "Gagal memproses login Google"⟩, db')
        | some user =>
          if !(user.is_active.getD true) then (.error ⟨403, "Akun dinonaktifkan"⟩, db')
          else
            (.ok ⟨true, "Login Google berhasil",
                  ⟨user._id, user.name, user.email⟩, "demo-token"⟩, db')

/-- `POST /auth/forgot` (`forgot_password` in `src/main.py`).  `tokenGen`
is the `secrets.token_urlsafe(32)` draw, `now` the current UTC time in
seconds; the token expires at `now + 3600`. -/
def forgot_password (tokenGen : String) (now : Int) (db? : Option DB)
    (emailRaw : String) :
    Except HTTPExc ForgotResp × Option DB :=
  match db? with
  | none =>
    (.ok ⟨true, "Jika email terdaftar, tautan reset telah dikirim.", none, none⟩, none)
  | some db =>
    match db.authuser.find? (fun u => u.email == (strLower emailRaw)) with
    | none =>
      (.ok ⟨true, "Jika email terdaftar, tautan reset telah dikirim.", none, none⟩, some db)
    | some _ =>
      let invalidated : List ResetDoc := db.passwordreset.map (fun t =>
        if t.email == (strLower emailRaw) && t.used == false then { t with used := true } else t)
      let doc : ResetDoc := ⟨db.nextId, (strLower emailRaw), tokenGen, now + 3600, false⟩
      (.ok ⟨true, "Jika email terdaftar, tautan reset telah dikirim.", some tokenGen, some 3600⟩,
       some { db with passwordreset := invalidated ++ [doc], nextId := db.nextId + 1 })

/-- `POST /auth/reset` (`reset_password` in `src/main.py`).  `hashFn` is
`pwd_context.hash`, `now` the current UTC time in seconds. -/
def reset_password (hashFn : String → String) (now : Int) (db? : Option DB)
    (p : ResetPayload) :
    Except HTTPExc ResetResp × Option DB :=
  match db? with
  | none => (.error ⟨500, "Database tidak tersedia"⟩, none)
  | some db =>
    match db.passwordreset.find? (fun t => t.email == (strLower p.email) && t.token == p.token) with
    | none => (.error ⟨400, "Token reset tidak valid"⟩, some db)
    | some token_doc =>
      if token_doc.used then (.error ⟨400, "Token reset sudah digunakan"⟩, some db)
      else if now > token_doc.expires_at then
        (.error ⟨400, "Token reset telah kedaluwarsa"⟩, some db)
      else
        match db.authuser.find? (fun u => u.email == (strLower p.email)) with
        | none => (.error ⟨404, "Pengguna tidak ditemukan"⟩, some db)
        | some user =>
          (.ok ⟨true, "Password berhasil direset. Silakan login kembali."⟩,
           some { db with
                    authuser := updateOneUserHash db.authuser user._id (hashFn p.new_password),
                    passwordreset := markUsedById db.passwordreset token_doc._id })

/-- A successful `find?` splits the list into a failing prelude, the hit,
and a tail. -/
theorem find?_decomp {α : Type} (p : α → Bool) :
    ∀ (l : List α) (a : α), l.find? p = some a →
      ∃ pre post, l = pre ++ a :: post ∧ (∀ x ∈ pre, p x = false) ∧ p a = true := by
  intro l
  induction l with
  | nil => intro a h; simp [List.find?] at h
  | cons x xs ih =>
    intro a h
    cases hx : p x with
    | true =>
      rw [List.find?_cons_of_pos _ hx] at h
      have hxa : x = a := Option.some.inj h
      subst hxa
      exact ⟨[], xs, rfl, by simp, hx⟩
    | false =>
      rw [List.find?_cons_of_neg _ (by simp [hx])] at h
      obtain ⟨pre, post, hl, hpre, ha⟩ := ih a h
      exact ⟨x :: pre, post, by simp [hl], by
        intro y hy
        rcases List.mem_cons.mp hy with hy | hy
        · exact hy ▸ hx
        · exact hpre y hy, ha⟩

/-- `find?` over `pre ++ a :: post` returns `a` when every element of
`pre` fails the predicate and `a` satisfies it. -/
theorem find?_append_first {α : Type} (p : α → Bool) (pre post : List α) (a : α)
    (hpre : ∀ x ∈ pre, p x = false) (ha : p a = true) :
    (pre ++ a :: post).find? p = some a := by
  induction pre with
  | nil => simpa using List.find?_cons_of_pos post ha
  | cons x xs ih =>
    have hx : p x = false := hpre x (List.mem_cons_self x xs)
    have hrest := ih (fun y hy => hpre y (List.mem_cons_of_mem x hy))
    rw [List.cons_append, List.find?_cons_of_neg _ (by simp [hx]), hrest]

/-- In a list whose `f`-image is duplicate-free, elements before an
occurrence of `a` have a different `f`-value. -/
theorem nodup_pre_ne {α β : Type} [DecidableEq β] (f : α → β)
    (pre post : List α) (a : α)
    (h : ((pre ++ a :: post).map f).Nodup) : ∀ x ∈ pre, f x ≠ f a := by
  intro x hx
  rw [List.map_append, List.map_cons] at h
  have h2 := List.nodup_middle.mp h
  have h3 : f a ∉ (pre.map f ++ post.map f) := (List.nodup_cons.mp h2).1
  intro hfe
  exact h3 (List.mem_append.mpr (Or.inl (hfe ▸ List.mem_map_of_mem f hx)))

/-- `markUsedById` rewrites exactly the named document when the ids before
it are different. -/
theorem markUsedById_decomp (pre post : List ResetDoc) (td : ResetDoc)
    (h : ∀ x ∈ pre, x._id ≠ td._id) :
    markUsedById (pre ++ td :: post) td._id =
      pre ++ { td with used := true } :: post := by
  induction pre with
  | nil => simp [markUsedById]
  | cons x xs ih =>
    have hx : x._id ≠ td._id := h x (List.mem_cons_self x xs)
    have := ih (fun y hy => h y (List.mem_cons_of_mem x hy))
    simp [markUsedById, hx, this]

/-- `updateOneUserHash` rewrites exactly the named document when the ids
before it are different. -/
theorem updateOneUserHash_decomp (pre post : List AuthUserDoc)
    (u : AuthUserDoc) (hsh : String)
    (h : ∀ x ∈ pre, x._id ≠ u._id) :
    updateOneUserHash (pre ++ u :: post) u._id hsh =
      pre ++ { u with password_hash := hsh } :: post := by
  induction pre with
  | nil => simp [updateOneUserHash]
  | cons x xs ih =>
    have hx : x._id ≠ u._id := h x (List.mem_cons_self x xs)
    have := ih (fun y hy => h y (List.mem_cons_of_mem x hy))
    simp [updateOneUserHash, hx, this]

/-- The `/auth/forgot` response with the `token` field removed, for
comparing response shapes. -/
def ForgotResp.dropToken (r : ForgotResp) : ForgotResp :=
  { r with token := none }

/-- The `/auth/forgot` response with both optional fields (`token`,
`expires_in`) removed, for comparing response shapes. -/
def ForgotResp.shape (r : ForgotResp) : ForgotResp :=
  { r with token := none, expires_in := none }

/-- `strLower` of a nonempty string is nonempty (it maps characters
one-to-one). -/
theorem strLower_ne_empty (s : String) (h : s ≠ "") : strLower s ≠ "" := by
  intro he
  apply h
  cases s with
  | mk data =>
    have hm : data.map Char.toLower = [] := congrArg String.data he
    have hd : data = [] := List.map_eq_nil_iff.mp hm
    simp [hd]

/-- Claim C3: `reset_password` fails with 400 "Token reset tidak valid"
when no stored token matches the normalized email and token; with 400
"Token reset sudah digunakan" when the matched token is used (even if it is
also expired — the used check comes first); with 400 "Token reset telah
kedaluwarsa" when `now > expires_at` in UTC; and with 404 "Pengguna tidak
ditemukan" when the token is valid but no account exists for the email —
checked in exactly that order. -/
theorem C3_reset_error_order (hashFn : String → String) (now : Int)
    (db : DB) (p : ResetPayload) :
    (db.passwordreset.find? (fun t => t.email == (strLower p.email) && t.token == p.token) = none →
      (reset_password hashFn now (some db) p).1 = .error ⟨400, "Token reset tidak valid"⟩) ∧
    (∀ td, db.passwordreset.find? (fun t => t.email == (strLower p.email) && t.token == p.token) = some td →
      td.used = true →
      (reset_password hashFn now (some db) p).1 = .error ⟨400, "Token reset sudah digunakan"⟩) ∧
    (∀ td, db.passwordreset.find? (fun t => t.email == (strLower p.email) && t.token == p.token) = some td →
      td.used = false → now > td.expires_at →
      (reset_password hashFn now (some db) p).1 = .error ⟨400, "Token reset telah kedaluwarsa"⟩) ∧
    (∀ td, db.passwordreset.find? (fun t => t.email == (strLower p.email) && t.token == p.token) = some td →
      td.used = false → ¬ now > td.expires_at →
      db.authuser.find? (fun u => u.email == (strLower p.email)) = none →
      (reset_password hashFn now (some db) p).1 = .error ⟨404, "Pengguna tidak ditemukan"⟩) := by
  refine ⟨?_, ?_, ?_, ?_⟩
  · intro hfind
    simp [reset_password, hfind]
  · intro td hfind hused
    simp [reset_password, hfind, hused]
  · intro td hfind hused hexp
    simp [reset_password, hfind, hused, hexp]
  · intro td hfind hused hexp huser
    simp [reset_password, hfind, hused, hexp, huser]

/-- Witness for C3: on a one-token store each of the four failure cases is
exercised at a concrete input. -/
theorem C3_reset_error_order_witness :
    (reset_password (fun s => s) 0
      (some ⟨[], [⟨0, "a@b.com", "tokA", 100, false⟩], 1⟩)
      ⟨"a@b.com", "other", "newpass1"⟩).1 = .error ⟨400, "Token reset tidak valid"⟩ ∧
    (reset_password (fun s => s) 0
      (some ⟨[], [⟨0, "a@b.com", "tokA", 100, true⟩], 1⟩)
      ⟨"a@b.com", "tokA", "newpass1"⟩).1 = .error ⟨400, "Token reset sudah digunakan"⟩ ∧
    (reset_password (fun s => s) 200
      (some ⟨[], [⟨0, "a@b.com", "tokA", 100, false⟩], 1⟩)
      ⟨"a@b.com", "tokA", "newpass1"⟩).1 = .error ⟨400, "Token reset telah kedaluwarsa"⟩ ∧
    (reset_password (fun s => s) 0
      (some ⟨[], [⟨0, "a@b.com", "tokA", 100, false⟩], 1⟩)
      ⟨"a@b.com", "tokA", "newpass1"⟩).1 = .error ⟨404, "Pengguna tidak ditemukan"⟩ := by
  refine ⟨?_, ?_, ?_, ?_⟩
  · exact (C3_reset_error_order (fun s => s) 0 _ _).1 (by decide)
  · exact (C3_reset_error_order (fun s => s) 0 _ _).2.1
      ⟨0, "a@b.com", "tokA", 100, true⟩ (by decide) (by decide)
  · exact (C3_reset_error_order (fun s => s) 200 _ _).2.2.1
      ⟨0, "a@b.com", "tokA", 100, false⟩ (by decide) (by decide) (by decide)
  · exact (C3_reset_error_order (fun s => s) 0 _ _).2.2.2
      ⟨0, "a@b.com", "tokA", 100, false⟩ (by decide) (by decide) (by decide) (by decide)

/-- Claim C5: every failing `reset_password` call leaves the store exactly
as it was — no account and no reset-token record is mutated on any failure
path. -/
theorem C5_failure_no_mutation (hashFn : String → String) (now : Int)
    (db? : Option DB) (p : ResetPayload) (e : HTTPExc)
    (h : (reset_password hashFn now db? p).1 = .error e) :
    (reset_password hashFn now db? p).2 = db? := by
  cases db? with
  | none => rfl
  | some db =>
    simp only [reset_password] at h ⊢
    cases hfind : db.passwordreset.find? (fun t => t.email == (strLower p.email) && t.token == p.token) with
    | none => simp [hfind]
    | some td =>
      simp only [hfind] at h ⊢
      cases hused : td.used with
      | true => simp [hused]
      | false =>
        simp only [hused] at h ⊢
        by_cases hexp : now > td.expires_at
        · simp [hexp]
        · simp only [if_neg hexp, Bool.false_eq_true, if_false] at h ⊢
          cases huser : db.authuser.find? (fun u => u.email == (strLower p.email)) with
          | none => simp [huser]
          | some u => simp [huser] at h

/-- Witness for C5: a call with no matching token fails and returns the
store unchanged. -/
theorem C5_failure_no_mutation_witness :
    (reset_password (fun s => s) 0 (some ⟨[], [], 0⟩)
      ⟨"a@b.com", "tokA", "newpass1"⟩).2 = some ⟨[], [], 0⟩ := by
  exact C5_failure_no_mutation (fun s => s) 0 _ _ ⟨400, "Token reset tidak valid"⟩ (by decide)

/-- Claim C6: a login on an email with no account and a login on an
existing account with a wrong password fail with the identical status code
and identical generic message (401, "Email atau kata sandi salah"), so the
error text does not reveal whether the email is registered. -/
theorem C6_login_enumeration_safe
    (verify : String → String → Bool) (db1 db2 : DB)
    (p1 p2 : LoginPayload) (u : AuthUserDoc)
    (h1 : db1.authuser.find? (fun x => x.email == (strLower p1.email)) = none)
    (h2 : db2.authuser.find? (fun x => x.email == (strLower p2.email)) = some u)
    (hv : verify p2.password u.password_hash = false) :
    (login verify (some db1) p1).1 = .error ⟨401, "Email atau kata sandi salah"⟩ ∧
    (login verify (some db2) p2).1 = .error ⟨401, "Email atau kata sandi salah"⟩ := by
  constructor
  · simp [login, h1]
  · simp [login, h2, hv]

/-- Witness for C6: concrete absent-account and wrong-password logins both
produce the same 401 error. -/
theorem C6_login_enumeration_safe_witness :
    (login (fun pw h => pw ++ "#h" == h) (some ⟨[], [], 0⟩)
      ⟨"a@b.com", "secret123"⟩).1 = .error ⟨401, "Email atau kata sandi salah"⟩ ∧
    (login (fun pw h => pw ++ "#h" == h)
      (some ⟨[⟨0, "Bob", "b@c.com", "right1#h", some true⟩], [], 1⟩)
      ⟨"b@c.com", "wrong12"⟩).1 = .error ⟨401, "Email atau kata sandi salah"⟩ := by
  exact C6_login_enumeration_safe (fun pw h => pw ++ "#h" == h) _ _ _ _
    ⟨0, "Bob", "b@c.com", "right1#h", some true⟩ (by decide) (by decide) (by decide)

/-- Claim C7: `register` normalizes the email to lower case; if an account
with that normalized email exists it fails with 409 and changes nothing;
otherwise it appends exactly one account with the hashed password and
`is_active = true` and returns the fresh id. -/
theorem C7_register_conflict_or_create
    (hashFn : String → String) (db : DB) (p : RegisterPayload) :
    ((∃ u, db.authuser.find? (fun x => x.email == (strLower p.email)) = some u) →
      register hashFn db p = (.error ⟨409, "Email sudah terdaftar"⟩, db)) ∧
    (db.authuser.find? (fun x => x.email == (strLower p.email)) = none →
      register hashFn db p =
        (.ok ⟨true, "Registrasi berhasil", db.nextId⟩,
         ⟨db.authuser ++ [⟨db.nextId, p.name, strLower p.email, hashFn p.password, some true⟩],
          db.passwordreset, db.nextId + 1⟩)) := by
  constructor
  · rintro ⟨u, hu⟩
    simp [register, hu]
  · intro hnone
    simp [register, hnone]

/-- Witness for C7: a duplicate registration (case-insensitively) fails
with 409 and leaves the store unchanged; a fresh one creates the account. -/
theorem C7_register_conflict_or_create_witness :
    register (fun s => s ++ "#h") ⟨[⟨0, "Alice", "alice@x.com", "h", some true⟩], [], 1⟩
      ⟨"Alice 2", "ALICE@X.com", "secret123"⟩ =
      (.error ⟨409, "Email sudah terdaftar"⟩,
       ⟨[⟨0, "Alice", "alice@x.com", "h", some true⟩], [], 1⟩) ∧
    register (fun s => s ++ "#h") ⟨[], [], 0⟩ ⟨"Bob", "Bob@c.com", "secret123"⟩ =
      (.ok ⟨true, "Registrasi berhasil", 0⟩,
       ⟨[⟨0, "Bob", "bob@c.com", "secret123#h", some true⟩], [], 1⟩) := by
  constructor
  · exact (C7_register_conflict_or_create (fun s => s ++ "#h") _ _).1
      ⟨⟨0, "Alice", "alice@x.com", "h", some true⟩, by decide⟩
  · have h := (C7_register_conflict_or_create (fun s => s ++ "#h")
      ⟨[], [], 0⟩ ⟨"Bob", "Bob@c.com", "secret123"⟩).2 (by decide)
    simpa using h

/-- Claim C9 (refuted as stated): with the backing store unavailable,
`login` does not report an Internal error — it returns the generic
credential error 401 "Email atau kata sandi salah" — so "every operation
surfaces the failure as an Internal error; in particular login reports
Internal rather than a credential error" is false at this input. -/
theorem C9_counterexample :
    login (fun _ _ => true) none ⟨"a@b.com", "secret123"⟩ =
      (.error ⟨401, "Email atau kata sandi salah"⟩, none) ∧
    (401 : Nat) ≠ 500 := by
  exact ⟨rfl, by decide⟩

/-- Claim C9 (amended): with the backing store unavailable,
`reset_password` surfaces 500 "Database tidak tersedia" with no mutation,
while `login` treats the email as unregistered and fails with the generic
401 credential error, and `forgot_password` returns the generic success
envelope without a token; none of them mutates any state. -/
theorem C9_store_unavailable
    (hashFn : String → String) (verify : String → String → Bool)
    (tokenGen : String) (now : Int) (p : ResetPayload) (pl : LoginPayload)
    (emailRaw : String) :
    reset_password hashFn now none p = (.error ⟨500, "Database tidak tersedia"⟩, none) ∧
    login verify none pl = (.error ⟨401, "Email atau kata sandi salah"⟩, none) ∧
    forgot_password tokenGen now none emailRaw =
      (.ok ⟨true, "Jika email terdaftar, tautan reset telah dikirim.", none, none⟩, none) := by
  exact ⟨rfl, rfl, rfl⟩

/-- Claim C10: a stored account record whose `is_active` field is absent is
treated as active: `login` with the correct password and `google_auth` with
an oracle-verified credential for that email both return success rather
than 403. -/
theorem C10_missing_is_active_defaults_active
    (verify : String → String → Bool) (hashFn : String → String)
    (randomHex : String) (db : DB) (p : LoginPayload) (u : AuthUserDoc)
    (eg : String) (nm : Option String)
    (hfind : db.authuser.find? (fun x => x.email == (strLower p.email)) = some u)
    (hactive : u.is_active = none)
    (hver : verify p.password u.password_hash = true)
    (heg : eg ≠ "")
    (hlow : strLower eg = strLower p.email) :
    (login verify (some db) p).1 =
      .ok ⟨true, "Login berhasil", ⟨u._id, u.name, u.email⟩, "demo-token"⟩ ∧
    google_auth hashFn randomHex (.ok (some eg) nm) db =
      (.ok ⟨true, "Login Google berhasil", ⟨u._id, u.name, u.email⟩, "demo-token"⟩, db) := by
  constructor
  · simp [login, hfind, hver, hactive]
  · have hpy : pyOr (some eg) "" = eg := by simp [pyOr, heg]
    have hne : strLower eg ≠ "" := strLower_ne_empty eg heg
    rw [hlow] at hne
    simp [google_auth, hpy, hne, hlow, hfind, hactive]

/-- Witness for C10: a concrete account stored without `is_active` logs in
successfully by password and by federated credential. -/
theorem C10_missing_is_active_defaults_active_witness :
    (login (fun pw h => pw ++ "#h" == h)
      (some ⟨[⟨0, "Alice", "alice@x.com", "pw1234#h", none⟩], [], 1⟩)
      ⟨"alice@x.com", "pw1234"⟩).1 =
      .ok ⟨true, "Login berhasil", ⟨0, "Alice", "alice@x.com"⟩, "demo-token"⟩ ∧
    google_auth (fun s => s ++ "#h") "rand"
      (.ok (some "Alice@X.com") none)
      ⟨[⟨0, "Alice", "alice@x.com", "pw1234#h", none⟩], [], 1⟩ =
      (.ok ⟨true, "Login Google berhasil", ⟨0, "Alice", "alice@x.com"⟩, "demo-token"⟩,
       ⟨[⟨0, "Alice", "alice@x.com", "pw1234#h", none⟩], [], 1⟩) := by
  exact C10_missing_is_active_defaults_active
    (fun pw h => pw ++ "#h" == h) (fun s => s ++ "#h") "rand" _ _
    ⟨0, "Alice", "alice@x.com", "pw1234#h", none⟩ "Alice@X.com" none
    (by decide) (by decide) (by decide) (by decide) (by decide)

/-- Claim C4 (refuted as stated): the two success responses of
`forgot_password` — one for a registered email, one for an unregistered
one — still differ after removing the `token` field, because the
registered-email response also carries `expires_in`; so "differ only in
the presence of the token field" is false at this input. -/
theorem C4_counterexample :
    (forgot_password "tok" 0
        (some ⟨[⟨0, "Alice", "alice@x.com", "h", some true⟩], [], 1⟩)
        "alice@x.com").1.map ForgotResp.dropToken ≠
    (forgot_password "tok" 0 (some ⟨[], [], 0⟩) "alice@x.com").1.map ForgotResp.dropToken := by
  decide

/-- Claim C4 (amended): `forgot_password` never fails externally, always
returns `ok = true` with the same message, and the success responses for a
registered and an unregistered email differ only in the presence of the
`token` and `expires_in` fields: with both removed, every response equals
the same constant envelope. -/
theorem C4_forgot_uniform_envelope
    (tokenGen : String) (now : Int) (db? : Option DB) (emailRaw : String) :
    ∃ r : ForgotResp,
      (forgot_password tokenGen now db? emailRaw).1 = .ok r ∧
      r.ok = true ∧
      r.message = "Jika email terdaftar, tautan reset telah dikirim." ∧
      r.shape = ⟨true, "Jika email terdaftar, tautan reset telah dikirim.", none, none⟩ := by
  cases db? with
  | none => exact ⟨_, rfl, rfl, rfl, rfl⟩
  | some db =>
    cases hfind : db.authuser.find? (fun u => u.email == (strLower emailRaw)) with
    | none =>
      refine ⟨⟨true, "Jika email terdaftar, tautan reset telah dikirim.", none, none⟩, ?_, rfl, rfl, rfl⟩
      simp [forgot_password, hfind]
    | some u =>
      refine ⟨⟨true, "Jika email terdaftar, tautan reset telah dikirim.", some tokenGen, some 3600⟩, ?_, rfl, rfl, rfl⟩
      simp [forgot_password, hfind]

/-- Shape of a successful `reset_password`: with a found, unused, unexpired
token and an existing account, it returns success and rewrites exactly the
two affected documents. -/
theorem reset_password_success_shape
    (hashFn : String → String) (now : Int) (db : DB) (p : ResetPayload)
    (td : ResetDoc) (u : AuthUserDoc)
    (hfind : db.passwordreset.find? (fun t => t.email == (strLower p.email) && t.token == p.token) = some td)
    (hused : td.used = false)
    (hexp : ¬ now > td.expires_at)
    (huser : db.authuser.find? (fun x => x.email == (strLower p.email)) = some u) :
    reset_password hashFn now (some db) p =
      (.ok ⟨true, "Password berhasil direset. Silakan login kembali."⟩,
       some { db with
                authuser := updateOneUserHash db.authuser u._id (hashFn p.new_password),
                passwordreset := markUsedById db.passwordreset td._id }) := by
  simp only [reset_password]
  rw [hfind]
  simp [hused, huser, show ¬ td.expires_at < now from hexp]

/-- Claim C1: `forgot_password` on an existing account marks every
currently-unused reset token for the normalized email as used and only then
inserts the new token, so afterwards the fresh token is the only unused one
for that email, every previously-unused token is stored as used, and the
fresh token (alone) is accepted by `reset_password` — in particular after
two consecutive requests only the most recent token remains valid. -/
theorem C1_token_supersession
    (tokenGen : String) (now : Int) (db : DB) (emailRaw npw : String)
    (hashFn : String → String) (u : AuthUserDoc)
    (hu : db.authuser.find? (fun x => x.email == (strLower emailRaw)) = some u)
    (hfresh : ∀ t ∈ db.passwordreset, ¬(t.email = strLower emailRaw ∧ t.token = tokenGen)) :
    ∃ db' : DB,
      (forgot_password tokenGen now (some db) emailRaw).2 = some db' ∧
      (∀ t ∈ db'.passwordreset, t.email = strLower emailRaw → t.used = false →
        t = ⟨db.nextId, strLower emailRaw, tokenGen, now + 3600, false⟩) ∧
      (⟨db.nextId, strLower emailRaw, tokenGen, now + 3600, false⟩ : ResetDoc) ∈ db'.passwordreset ∧
      (∀ t ∈ db.passwordreset, t.email = strLower emailRaw → t.used = false →
        ({ t with used := true } : ResetDoc) ∈ db'.passwordreset) ∧
      (reset_password hashFn now (some db') ⟨emailRaw, tokenGen, npw⟩).1 =
        .ok ⟨true, "Password berhasil direset. Silakan login kembali."⟩ := by
  refine ⟨{ db with
      passwordreset := db.passwordreset.map (fun t =>
        if t.email == (strLower emailRaw) && t.used == false then { t with used := true } else t)
        ++ [⟨db.nextId, (strLower emailRaw), tokenGen, now + 3600, false⟩],
      nextId := db.nextId + 1 }, ?_, ?_, ?_, ?_, ?_⟩
  · simp [forgot_password, hu]
  · intro t ht hemail hunused
    rcases List.mem_append.mp ht with hmem | hmem
    · rcases List.mem_map.mp hmem with ⟨t0, ht0, rfl⟩
      by_cases hc : (t0.email == (strLower emailRaw) && t0.used == false) = true
      · rw [if_pos hc] at hunused
        simp at hunused
      · rw [if_neg hc] at hemail hunused
        exact absurd (by simp [hemail, hunused]) hc
    · simpa using hmem
  · exact List.mem_append.mpr (Or.inr (List.mem_singleton.mpr rfl))
  · intro t ht hemail hunused
    apply List.mem_append.mpr
    left
    have hmem := List.mem_map_of_mem
      (fun t : ResetDoc =>
        if t.email == (strLower emailRaw) && t.used == false then { t with used := true } else t) ht
    simpa [hemail, hunused] using hmem
  · have hpred : ∀ x ∈ db.passwordreset.map (fun t : ResetDoc =>
        if t.email == (strLower emailRaw) && t.used == false then { t with used := true } else t),
        (x.email == (strLower emailRaw) && x.token == tokenGen) = false := by
      intro x hx
      rcases List.mem_map.mp hx with ⟨t0, ht0, rfl⟩
      have hemail : (if t0.email == (strLower emailRaw) && t0.used == false then { t0 with used := true } else t0).email = t0.email := by
        split <;> rfl
      have htok : (if t0.email == (strLower emailRaw) && t0.used == false then { t0 with used := true } else t0).token = t0.token := by
        split <;> rfl
      rw [hemail, htok]
      have hnot := hfresh t0 ht0
      rcases eq_or_ne t0.email (strLower emailRaw) with he0 | he0
      · have htk : t0.token ≠ tokenGen := fun h => hnot ⟨he0, h⟩
        simp [htk]
      · simp [he0]
    have hfind : (db.passwordreset.map (fun t : ResetDoc =>
        if t.email == (strLower emailRaw) && t.used == false then { t with used := true } else t)
        ++ [(⟨db.nextId, (strLower emailRaw), tokenGen, now + 3600, false⟩ : ResetDoc)]).find?
          (fun t : ResetDoc => t.email == (strLower emailRaw) && t.token == tokenGen) =
        some ⟨db.nextId, (strLower emailRaw), tokenGen, now + 3600, false⟩ :=
      find?_append_first (fun t : ResetDoc => t.email == (strLower emailRaw) && t.token == tokenGen)
        (db.passwordreset.map (fun t : ResetDoc =>
          if t.email == (strLower emailRaw) && t.used == false then { t with used := true } else t))
        [] ⟨db.nextId, (strLower emailRaw), tokenGen, now + 3600, false⟩ hpred (by simp)
    have hnow : ¬ now > now + 3600 := by omega
    have hshape := reset_password_success_shape hashFn now
      { db with
          passwordreset := db.passwordreset.map (fun t =>
            if t.email == (strLower emailRaw) && t.used == false then { t with used := true } else t)
            ++ [⟨db.nextId, (strLower emailRaw), tokenGen, now + 3600, false⟩],
          nextId := db.nextId + 1 }
      ⟨emailRaw, tokenGen, npw⟩
      ⟨db.nextId, (strLower emailRaw), tokenGen, now + 3600, false⟩ u
      hfind rfl hnow hu
    rw [hshape]

/-- Witness for C1: a concrete store with one account and one unused token
for the same email; the new request supersedes the old token. -/
theorem C1_token_supersession_witness :
    ∃ db' : DB,
      (forgot_password "tokB" 0
        (some ⟨[⟨0, "Alice", "a@b.com", "h", some true⟩],
               [⟨1, "a@b.com", "tokA", 50, false⟩], 2⟩) "a@b.com").2 = some db' ∧
      (∀ t ∈ db'.passwordreset, t.email = strLower "a@b.com" → t.used = false →
        t = ⟨2, strLower "a@b.com", "tokB", 0 + 3600, false⟩) ∧
      (⟨2, strLower "a@b.com", "tokB", 0 + 3600, false⟩ : ResetDoc) ∈ db'.passwordreset ∧
      (∀ t ∈ ([⟨1, "a@b.com", "tokA", 50, false⟩] : List ResetDoc),
        t.email = strLower "a@b.com" → t.used = false →
        ({ t with used := true } : ResetDoc) ∈ db'.passwordreset) ∧
      (reset_password (fun s => s ++ "#h") 0 (some db') ⟨"a@b.com", "tokB", "newpass1"⟩).1 =
        .ok ⟨true, "Password berhasil direset. Silakan login kembali."⟩ := by
  exact C1_token_supersession "tokB" 0
    ⟨[⟨0, "Alice", "a@b.com", "h", some true⟩], [⟨1, "a@b.com", "tokA", 50, false⟩], 2⟩
    "a@b.com" "newpass1" (fun s => s ++ "#h")
    ⟨0, "Alice", "a@b.com", "h", some true⟩ (by decide) (by decide)

/-- Claim C2: when the (normalized email, token) pair is found, the token
is unused and unexpired, and the owning account exists, `reset_password`
overwrites exactly that account's `password_hash` with the hash of the new
password (so against the stored hash the old password no longer verifies
and the new one does), marks exactly that token used, returns success, and
a replay with the same token fails with the used-token error. -/
theorem C2_reset_success
    (hashFn : String → String) (verify : String → String → Bool)
    (now : Int) (db : DB) (p : ResetPayload) (td : ResetDoc) (u : AuthUserDoc)
    (oldPw : String)
    (hwf : db.WF)
    (hfind : db.passwordreset.find? (fun t => t.email == (strLower p.email) && t.token == p.token) = some td)
    (hused : td.used = false)
    (hexp : ¬ now > td.expires_at)
    (huser : db.authuser.find? (fun x => x.email == (strLower p.email)) = some u)
    (hvnew : verify p.new_password (hashFn p.new_password) = true)
    (hvold : verify oldPw (hashFn p.new_password) = false) :
    (reset_password hashFn now (some db) p).1 =
      .ok ⟨true, "Password berhasil direset. Silakan login kembali."⟩ ∧
    ∃ db' : DB,
      (reset_password hashFn now (some db) p).2 = some db' ∧
      (∃ preU postU, db.authuser = preU ++ u :: postU ∧
        db'.authuser = preU ++ { u with password_hash := hashFn p.new_password } :: postU) ∧
      db'.authuser.find? (fun x => x.email == (strLower p.email)) =
        some { u with password_hash := hashFn p.new_password } ∧
      (∀ u', db'.authuser.find? (fun x => x.email == (strLower p.email)) = some u' →
        verify p.new_password u'.password_hash = true ∧
        verify oldPw u'.password_hash = false) ∧
      (∃ pre post, db.passwordreset = pre ++ td :: post ∧
        db'.passwordreset = pre ++ { td with used := true } :: post) ∧
      (reset_password hashFn now (some db') p).1 = .error ⟨400, "Token reset sudah digunakan"⟩ := by
  obtain ⟨hnodupU, hnodupT, _, _⟩ := hwf
  obtain ⟨pre, post, hsplit, hpre, hp⟩ := find?_decomp _ _ _ hfind
  obtain ⟨preU, postU, hsplitU, hpreU, hpU⟩ := find?_decomp _ _ _ huser
  have hpreIds : ∀ x ∈ pre, x._id ≠ td._id := fun x hx =>
    nodup_pre_ne (fun t : ResetDoc => t._id) pre post td (hsplit ▸ hnodupT) x hx
  have hpreIdsU : ∀ x ∈ preU, x._id ≠ u._id := fun x hx =>
    nodup_pre_ne (fun t : AuthUserDoc => t._id) preU postU u (hsplitU ▸ hnodupU) x hx
  have hmark : markUsedById db.passwordreset td._id = pre ++ { td with used := true } :: post := by
    rw [hsplit]; exact markUsedById_decomp pre post td hpreIds
  have hupd : updateOneUserHash db.authuser u._id (hashFn p.new_password) =
      preU ++ { u with password_hash := hashFn p.new_password } :: postU := by
    rw [hsplitU]; exact updateOneUserHash_decomp preU postU u _ hpreIdsU
  have hshape := reset_password_success_shape hashFn now db p td u hfind hused hexp huser
  have hfindU' : (preU ++ { u with password_hash := hashFn p.new_password } :: postU).find?
      (fun x => x.email == (strLower p.email)) =
      some { u with password_hash := hashFn p.new_password } :=
    find?_append_first _ preU postU _ hpreU hpU
  have hfindT' : (pre ++ { td with used := true } :: post).find?
      (fun t => t.email == (strLower p.email) && t.token == p.token) =
      some { td with used := true } :=
    find?_append_first _ pre post _ hpre hp
  refine ⟨by rw [hshape], ⟨preU ++ { u with password_hash := hashFn p.new_password } :: postU,
    pre ++ { td with used := true } :: post, db.nextId⟩, ?_, ?_, ?_, ?_, ?_, ?_⟩
  · rw [hshape, hupd, hmark]
  · exact ⟨preU, postU, hsplitU, rfl⟩
  · exact hfindU'
  · intro u' h
    rw [hfindU'] at h
    have : u' = { u with password_hash := hashFn p.new_password } := (Option.some.inj h).symm
    subst this
    exact ⟨hvnew, hvold⟩
  · exact ⟨pre, post, hsplit, rfl⟩
  · simp only [reset_password]
    rw [hfindT']
    simp

/-- Witness for C2: a concrete store with one account and one fresh token;
the reset succeeds, rewrites the stored hash, and the replay fails. -/
theorem C2_reset_success_witness :
    (reset_password (fun s => s ++ "#h") 50
      (some ⟨[⟨0, "Alice", "a@b.com", "oldpass1#h", some true⟩],
             [⟨1, "a@b.com", "tokA", 100, false⟩], 2⟩)
      ⟨"a@b.com", "tokA", "newpass1"⟩).1 =
      .ok ⟨true, "Password berhasil direset. Silakan login kembali."⟩ ∧
    ∃ db' : DB,
      (reset_password (fun s => s ++ "#h") 50
        (some ⟨[⟨0, "Alice", "a@b.com", "oldpass1#h", some true⟩],
               [⟨1, "a@b.com", "tokA", 100, false⟩], 2⟩)
        ⟨"a@b.com", "tokA", "newpass1"⟩).2 = some db' ∧
      (∃ preU postU,
        ([⟨0, "Alice", "a@b.com", "oldpass1#h", some true⟩] : List AuthUserDoc) =
          preU ++ ⟨0, "Alice", "a@b.com", "oldpass1#h", some true⟩ :: postU ∧
        db'.authuser = preU ++
          ({ (⟨0, "Alice", "a@b.com", "oldpass1#h", some true⟩ : AuthUserDoc) with
              password_hash := "newpass1" ++ "#h" }) :: postU) ∧
      db'.authuser.find? (fun x => x.email == (strLower "a@b.com")) =
        some ({ (⟨0, "Alice", "a@b.com", "oldpass1#h", some true⟩ : AuthUserDoc) with
                 password_hash := "newpass1" ++ "#h" }) ∧
      (∀ u', db'.authuser.find? (fun x => x.email == (strLower "a@b.com")) = some u' →
        ("newpass1" ++ "#h" == u'.password_hash) = true ∧
        ("oldpass1" ++ "#h" == u'.password_hash) = false) ∧
      (∃ pre post,
        ([⟨1, "a@b.com", "tokA", 100, false⟩] : List ResetDoc) =
          pre ++ ⟨1, "a@b.com", "tokA", 100, false⟩ :: post ∧
        db'.passwordreset = pre ++
          ({ (⟨1, "a@b.com", "tokA", 100, false⟩ : ResetDoc) with used := true }) :: post) ∧
      (reset_password (fun s => s ++ "#h") 50 (some db')
        ⟨"a@b.com", "tokA", "newpass1"⟩).1 = .error ⟨400, "Token reset sudah digunakan"⟩ := by
  exact C2_reset_success (fun s => s ++ "#h") (fun pw h => pw ++ "#h" == h) 50
    ⟨[⟨0, "Alice", "a@b.com", "oldpass1#h", some true⟩],
     [⟨1, "a@b.com", "tokA", 100, false⟩], 2⟩
    ⟨"a@b.com", "tokA", "newpass1"⟩
    ⟨1, "a@b.com", "tokA", 100, false⟩
    ⟨0, "Alice", "a@b.com", "oldpass1#h", some true⟩
    "oldpass1"
    (by decide) (by decide) (by decide) (by decide) (by decide) (by decide) (by decide)

/-- Claim C8 (refuted as stated): auto-provisioning an account for a
verified credential whose oracle gives no name uses the placeholder
"Pengguna " followed by the local part of the email — not "User " as the
claim states — shown here on a concrete empty store. -/
theorem C8_counterexample :
    ((google_auth (fun s => "H" ++ s) "rr"
        (OracleResp.ok (some "alice@x.com") none) ⟨[], [], 0⟩).2).authuser.map
      (fun u => u.name) = ["Pengguna alice"] ∧
    "Pengguna alice" ≠ "User alice" := by
  exact ⟨by decide, by decide⟩

/-- Claim C8 (amended): `google_auth` with an oracle-rejected credential
fails with 401 and creates no account; with a verified credential whose
nonempty email has no local account it provisions exactly one account whose
name is the oracle-provided name or, when the oracle gives none (or an
empty name), "Pengguna " followed by the local part of the email, with
`password_hash` the hash of the random bytes and `is_active = true`, and
returns success for that account. -/
theorem C8_federated_provisioning
    (hashFn : String → String) (randomHex : String) (db : DB)
    (name? : Option String) (eg : String)
    (hwf : db.WF)
    (heg : eg ≠ "")
    (hnew : db.authuser.find? (fun x => x.email == (strLower eg)) = none) :
    google_auth hashFn randomHex .reject db = (.error ⟨401, "Token Google tidak valid"⟩, db) ∧
    google_auth hashFn randomHex (.ok (some eg) name?) db =
      (.ok ⟨true, "Login Google berhasil",
            ⟨db.nextId, pyOr name? ("Pengguna " ++ localPart (strLower eg)), strLower eg⟩,
            "demo-token"⟩,
       ⟨db.authuser ++ [⟨db.nextId, pyOr name? ("Pengguna " ++ localPart (strLower eg)),
                         strLower eg, hashFn randomHex, some true⟩],
        db.passwordreset, db.nextId + 1⟩) := by
  constructor
  · rfl
  · have hpy : pyOr (some eg) "" = eg := by simp [pyOr, heg]
    have hne : strLower eg ≠ "" := strLower_ne_empty eg heg
    have hidfail : ∀ x ∈ db.authuser, ((fun x : AuthUserDoc => x._id == db.nextId) x) = false := by
      intro x hx
      have hlt := hwf.2.2.1 x hx
      simp [Nat.ne_of_lt hlt]
    have hrefetch : (db.authuser ++
        [(⟨db.nextId, pyOr name? ("Pengguna " ++ localPart (strLower eg)),
           strLower eg, hashFn randomHex, some true⟩ : AuthUserDoc)]).find?
          (fun x : AuthUserDoc => x._id == db.nextId) =
        some ⟨db.nextId, pyOr name? ("Pengguna " ++ localPart (strLower eg)),
              strLower eg, hashFn randomHex, some true⟩ :=
      find?_append_first (fun x : AuthUserDoc => x._id == db.nextId) db.authuser []
        ⟨db.nextId, pyOr name? ("Pengguna " ++ localPart (strLower eg)),
         strLower eg, hashFn randomHex, some true⟩ hidfail (by simp)
    simp [google_auth, hpy, hne, hnew, hrefetch]

/-- Witness for C8: on an empty, well-formed store a rejected credential
creates nothing, and a verified credential for a fresh email provisions the
single placeholder-named account. -/
theorem C8_federated_provisioning_witness :
    google_auth (fun s => s ++ "#h") "rnd" .reject ⟨[], [], 0⟩ =
      (.error ⟨401, "Token Google tidak valid"⟩, ⟨[], [], 0⟩) ∧
    google_auth (fun s => s ++ "#h") "rnd" (.ok (some "Bob@c.com") none) ⟨[], [], 0⟩ =
      (.ok ⟨true, "Login Google berhasil",
            ⟨0, pyOr none ("Pengguna " ++ localPart (strLower "Bob@c.com")), strLower "Bob@c.com"⟩,
            "demo-token"⟩,
       ⟨[⟨0, pyOr none ("Pengguna " ++ localPart (strLower "Bob@c.com")),
          strLower "Bob@c.com", "rnd" ++ "#h", some true⟩],
        [], 1⟩) := by
  exact C8_federated_provisioning (fun s => s ++ "#h") "rnd" ⟨[], [], 0⟩ none "Bob@c.com"
    (by decide) (by decide) (by decide)

end BackendAuth
